import Mathlib

/-!
Verification of the fog VM supervisor core: the `Machine` process/connection
manager (machine.go) and the `LogMux` / `LogStream` multiplexer.

Go strings are modelled as Lean `String`, byte slices as `List Nat`,
durations and instants as `Nat` milliseconds, and Go errors as an inductive
`GoError` distinguishing wrapped errors (fmt.Errorf with %w, which records an
operation name and an underlying cause) from fresh errors (errors.New).
-/

/-- A Go error value: either a fresh error created by errors.New, or a
wrapping error created by fmt.Errorf("op: %w", cause). -/
inductive GoError where
  | new (msg : String)
  | wrap (op : String) (cause : GoError)
deriving DecidableEq, Repr

/-- True when the error wraps an underlying cause (fmt.Errorf %w), false for
a bare errors.New error. -/
def GoError.hasCause : GoError → Bool
  | .new _ => false
  | .wrap _ _ => true

/-! ## LogStream: coalesced buffered writes (write closure in LogMux.Stream) -/

/-- The coalescing window m.bufMs: time.Millisecond * 10, in milliseconds. -/
def bufMs : Nat := 10

/-- State of one LogStream's write machinery: the accumulation buffer b, the
pending timer t (some deadline when a flush is scheduled, none otherwise),
and the sequence of flushes delivered so far to the mux's shared sink m.w. -/
structure StreamState where
  buf : List Nat
  timer : Option Nat
  flushes : List (List Nat)
deriving DecidableEq, Repr

/-- The stream state before any write: empty buffer, no timer, no flushes. -/
def initStream : StreamState where
  buf := []
  timer := none
  flushes := []

/-- The write closure built in LogMux.Stream: append p to the buffer b, and
when no timer is pending schedule one for bufMs from now; return (len p, nil)
unconditionally.  The first component is the value returned to the caller,
the second the updated stream state. -/
def writeStream (st : StreamState) (now : Nat) (p : List Nat) : (Nat × Option GoError) × StreamState :=
  let st' :=
    match st.timer with
    | some _ => { st with buf := st.buf ++ p }
    | none => { st with buf := st.buf ++ p, timer := some (now + bufMs) }
  ((p.length, none), st')

/-- The time.AfterFunc callback: write the whole buffer to the shared sink in
one call (m.w.Write(b.Bytes())), reset the buffer (b.Reset()) and clear the
timer marker (t = nil). -/
def fireTimer (st : StreamState) : StreamState where
  buf := []
  timer := none
  flushes := st.flushes ++ [st.buf]

/-- Execute a time-ordered schedule of writes (instant, payload) against a
stream, firing the pending timer whenever its deadline is reached before the
next write, and letting a still-pending timer fire after the last write. -/
def run (st : StreamState) : List (Nat × List Nat) → StreamState
  | [] =>
    match st.timer with
    | some _ => fireTimer st
    | none => st
  | (t, p) :: rest =>
    match st.timer with
    | some d =>
      if d ≤ t then run (writeStream (fireTimer st) t p).2 rest
      else run (writeStream st t p).2 rest
    | none => run (writeStream st t p).2 rest

/-- The payloads of a write schedule concatenated in write order. -/
def joinPayloads (ws : List (Nat × List Nat)) : List Nat :=
  (ws.map Prod.snd).flatten

/-! ## LogMux: stream registry and color governance -/

/-- The mux state the claims depend on: the registry of streams (name and
currently assigned color, in registration order) and the dirty flag.  Colors
are abstract tokens (Nat). -/
structure MuxState where
  streams : List (String × Nat)
  isDirty : Bool
deriving DecidableEq, Repr

/-- LogMux.Stream: registering a stream panics (modelled as none) when the
name is already present, otherwise stores the new stream with its freshly
drawn initial color clr, sets the dirty flag, and returns the handle. -/
def streamReg (m : MuxState) (name : String) (clr : Nat) : Option (MuxState × (String × Nat)) :=
  if (m.streams.map Prod.fst).contains name then
    none
  else
    some ({ streams := m.streams ++ [(name, clr)], isDirty := true }, (name, clr))

/-- The reassignment loop of LogMux.refreshColors: stream i receives pal[i].
The palette is guaranteed by its generator to cover all streams; the final
case is unreachable under that contract. -/
def assignColors : List (String × Nat) → List Nat → List (String × Nat)
  | [], _ => []
  | (nm, _) :: rest, c :: cs => (nm, c) :: assignColors rest cs
  | s :: rest, [] => s :: rest

/-- LogMux.refreshColors: a no-op unless the dirty flag is set; otherwise
draw a fresh palette sized to the current stream count from the palette
generator (colorful.FastHappyPalette), reassign every stream's color from
it, and clear the dirty flag. -/
def refreshColors (palGen : Nat → List Nat) (m : MuxState) : MuxState :=
  if m.isDirty then
    { streams := assignColors m.streams (palGen m.streams.length), isDirty := false }
  else m

/-! ## Machine: launch arguments (Machine.Start) -/

/-- The configuration fields Machine.Start reads: memory size and the
host-to-guest port-forward rules. -/
structure MachineConfig where
  Memory : String
  Ports : List String
deriving DecidableEq, Repr

/-- The optional hostfwd clause of the -net user argument: empty when no
port-forward rules are configured, otherwise ",hostfwd=" followed by the
rules joined with commas (strings.Join). -/
def fwds (ports : List String) : String :=
  if ports.length > 0 then ",hostfwd=" ++ String.intercalate "," ports else ""

/-- The qemu argument list Machine.Start builds, given the resolved socket
paths and the cloud-init data-source URL. -/
def startArgs (conf : MachineConfig) (imgPath addr ttyAddr monAddr dsUrl : String) : List String :=
  ["-machine", "accel=kvm:tcg",
   "-cpu", "host",
   "-m", conf.Memory,
   "-nographic", "-vga", "none",
   "-hda", imgPath, "-snapshot",
   "-net", "nic",
   "-net", "user" ++ fwds conf.Ports,
   "-chardev", "socket,id=serial,path=" ++ addr ++ ",server,nowait",
   "-serial", "chardev:serial",
   "-chardev", "socket,id=tty,path=" ++ ttyAddr ++ ",server,nowait",
   "-serial", "chardev:tty",
   "-chardev", "socket,id=monitor,path=" ++ monAddr ++ ",server,nowait",
   "-monitor", "chardev:monitor",
   "-smbios", "type=1,serial=ds=nocloud-net;s=" ++ dsUrl]

/-- Modelled from the spec: xdg.RuntimeFile (the external xdg library used by
Machine.Start) joins the conventional per-user runtime directory with the
given relative path. -/
def xdgRuntimeFilePath (runtimeDir rel : String) : String :=
  runtimeDir ++ "/" ++ rel

/-- The primary serial socket path Start derives: fog/ + m.ID + .sock under
the runtime directory. -/
def primaryPath (dir id : String) : String :=
  xdgRuntimeFilePath dir ("fog/" ++ id ++ ".sock")

/-- The tty socket path Start derives: fog/ + m.ID + _tty.sock under the
runtime directory. -/
def ttyPath (dir id : String) : String :=
  xdgRuntimeFilePath dir ("fog/" ++ id ++ "_tty.sock")

/-- The monitor socket path Start derives: fog/ + m.ID + _monitor.sock under
the runtime directory. -/
def monitorPath (dir id : String) : String :=
  xdgRuntimeFilePath dir ("fog/" ++ id ++ "_monitor.sock")

/-- The lowercase hexadecimal digit for a nibble, as hex.EncodeToString
picks it from its digit table: 0..9 map to the digit characters and 10..15
to the letters a..f. -/
def hexDigitChar (n : Nat) : Char :=
  if n < 10 then Char.ofNat (48 + n) else Char.ofNat (87 + n)

/-- hex.EncodeToString one byte: high nibble then low nibble. -/
def byteToHex (b : Nat) : List Char :=
  [hexDigitChar (b / 16 % 16), hexDigitChar (b % 16)]

/-- generateMachineID: hex-encode the 32 random bytes read from the
cryptographic entropy source (the bytes are this model's input; a failing
entropy source panics before this point and yields no ID at all). -/
def generateMachineID (randomBytes : List Nat) : String :=
  String.mk (randomBytes.map byteToHex).flatten

/-! ## Machine: Start control flow and error wrapping -/

/-- Machine.Start's effectful steps and error propagation.  External results
are inputs: lookPath is exec.LookPath("qemu-system-x86_64"), xdgRF resolves a
runtime file path, cmdStart is the error of cmd.Start() (none on success).
Each failure is surfaced immediately, wrapped with the failing step's name;
on success the built argument list is returned. -/
def startRun (conf : MachineConfig) (imgPath id : String) (imdsPort : Nat)
    (lookPath : Except GoError String)
    (xdgRF : String → Except GoError String)
    (cmdStart : Option GoError) : Except GoError (List String) :=
  match lookPath with
  | .error e => .error (.wrap "finding qemu binary" e)
  | .ok _bin =>
    match xdgRF ("fog/" ++ id ++ ".sock") with
    | .error e => .error (.wrap "generating socket file path" e)
    | .ok addr =>
      match xdgRF ("fog/" ++ id ++ "_tty.sock") with
      | .error e => .error (.wrap "generating ttysocket file path" e)
      | .ok ttyAddr =>
        match xdgRF ("fog/" ++ id ++ "_monitor.sock") with
        | .error e => .error (.wrap "generating monitor socket file path" e)
        | .ok monAddr =>
          let dsUrl := "http://10.0.2.2:" ++ toString imdsPort ++ "/" ++ id ++ "/"
          match cmdStart with
          | some e => .error (.wrap "starting machine" e)
          | none => .ok (startArgs conf imgPath addr ttyAddr monAddr dsUrl)

/-! ## Machine: openConn / Conn retry loop -/

/-- An observable event of the openConn retry loop: a dial attempt on the
primary socket, or a sleep in milliseconds. -/
inductive ConnEvent where
  | dial (i : Nat)
  | sleep (ms : Nat)
deriving DecidableEq, Repr

/-- True exactly for dial events. -/
def ConnEvent.isDial : ConnEvent → Bool
  | .dial _ => true
  | .sleep _ => false

/-- What openConn produces: the returned connection, the returned error, the
cached-connection field m.conn after the call, and the event trace. -/
structure ConnResult where
  conn : Option Nat
  err : Option GoError
  cache : Option Nat
  events : List ConnEvent
deriving DecidableEq, Repr

/-- The retry loop of Machine.openConn: for i := 0; i < 3; i++ dial the
primary socket; on success cache and return the connection, on failure sleep
one second and retry; when the bound is exhausted return nil and the
errors.New connection error, leaving the cache unset.  rem is the number of
iterations remaining (3 - i). -/
def openConnLoop (dial : Nat → Except GoError Nat) : Nat → Nat → List ConnEvent → ConnResult
  | _i, 0, evs =>
    { conn := none, err := some (.new "failed to open connection"), cache := none, events := evs }
  | i, rem + 1, evs =>
    match dial i with
    | .ok c => { conn := some c, err := none, cache := some c, events := evs ++ [.dial i] }
    | .error _ => openConnLoop dial (i + 1) rem (evs ++ [.dial i, .sleep 1000])

/-- Machine.openConn: return the cached connection when present, otherwise
run the bounded retry loop. -/
def openConn (cached : Option Nat) (dial : Nat → Except GoError Nat) : ConnResult :=
  match cached with
  | some c => { conn := some c, err := none, cache := some c, events := [] }
  | none => openConnLoop dial 0 3 []

/-- Machine.Conn: delegate to openConn and return (nil, err) on failure,
(conn, nil) on success. -/
def connCall (cached : Option Nat) (dial : Nat → Except GoError Nat) : Option Nat × Option GoError :=
  let r := openConn cached dial
  match r.err with
  | some e => (none, some e)
  | none => (r.conn, none)

/-! ## Lockset model of the per-stream write path and flush callback -/

/-- The two variables shared between one stream's write closure and its
timer callback: the accumulation buffer b and the timer handle t. -/
inductive SharedVar where
  | buf
  | timer
deriving DecidableEq, Repr

/-- A step of straight-line code, as far as synchronization is concerned:
acquire a named mutex, release it, or touch a shared variable. -/
inductive SyncAction where
  | acq (l : String)
  | rel (l : String)
  | touch (v : SharedVar)
deriving DecidableEq, Repr

/-- The write closure built in LogMux.Stream, step by step: b.Write(p)
touches b; the t == nil test reads t; time.AfterFunc's result is assigned to
t.  No mutex is acquired anywhere on this path (m.mu is used only by
registration and refreshColors, not by the closure). -/
def writeClosureActions : List SyncAction :=
  [.touch .buf, .touch .timer, .touch .timer]

/-- The time.AfterFunc callback, step by step: b.Bytes() reads b, b.Reset()
writes b, t = nil writes t.  It too acquires no mutex. -/
def flushCallbackActions : List SyncAction :=
  [.touch .buf, .touch .buf, .touch .timer]

/-- Every touch of a shared variable in the action list, paired with the set
of mutexes held at that point. -/
def touchLocksets (held : List String) : List SyncAction → List (List String × SharedVar)
  | [] => []
  | .acq l :: rest => touchLocksets (l :: held) rest
  | .rel l :: rest => touchLocksets (held.erase l) rest
  | .touch v :: rest => (held, v) :: touchLocksets held rest

/-- Whether every touch of v in the first code path and every touch of v in
the second are covered by some common mutex, i.e. whether a mutex makes the
two paths mutually exclusive on v. -/
def mutuallyExcludedOn (a1 a2 : List SyncAction) (v : SharedVar) : Bool :=
  (touchLocksets [] a1).all fun p1 =>
    (touchLocksets [] a2).all fun p2 =>
      if p1.2 = v ∧ p2.2 = v then p1.1.any (fun l => p2.1.contains l) else true

/-! ## Substring helpers for the argument-list claims -/

/-- Whether sub occurs as a contiguous run inside l. -/
def listHasSub (sub : List Char) : List Char → Bool
  | [] => sub.isEmpty
  | c :: t => sub.isPrefixOf (c :: t) || listHasSub sub t

/-- Whether sub occurs as a substring of s. -/
def strContains (s sub : String) : Bool :=
  listHasSub sub.data s.data

/-- The number of positions of l at which sub starts. -/
def countSub (sub : List Char) : List Char → Nat
  | [] => 0
  | c :: t => (if sub.isPrefixOf (c :: t) then 1 else 0) + countSub sub t

/-! ## Helper lemmas -/

theorem run_pending_window (ws : List (Nat × List Nat)) :
    ∀ (st : StreamState) (d : Nat), st.timer = some d → (∀ w ∈ ws, w.1 < d) →
    run st ws = { buf := [], timer := none, flushes := st.flushes ++ [st.buf ++ joinPayloads ws] } := by
  induction ws with
  | nil =>
    intro st d h _
    simp [run, h, fireTimer, joinPayloads]
  | cons w rest ih =>
    intro st d h hw
    obtain ⟨t, p⟩ := w
    have ht : t < d := hw (t, p) (List.mem_cons_self _ _)
    have hst : (writeStream st t p).2 = { st with buf := st.buf ++ p } := by
      simp [writeStream, h]
    have hrec := ih (writeStream st t p).2 d (by simp [hst, h]) (fun w hww => hw w (List.mem_cons_of_mem _ hww))
    simp only [run, h]
    rw [if_neg (not_le.mpr ht)]
    rw [hrec, hst]
    simp [joinPayloads]

theorem assignColors_names (streams : List (String × Nat)) :
    ∀ pal, (assignColors streams pal).map Prod.fst = streams.map Prod.fst := by
  induction streams with
  | nil => intro pal; simp [assignColors]
  | cons s rest ih =>
    intro pal
    obtain ⟨nm, c⟩ := s
    cases pal with
    | nil => simp [assignColors]
    | cons c2 cs => simp [assignColors, ih]

theorem assignColors_mem_pal (streams : List (String × Nat)) :
    ∀ (pal : List Nat), pal.length = streams.length →
    ∀ pr ∈ assignColors streams pal, pr.2 ∈ pal := by
  induction streams with
  | nil => intro pal _ pr hpr; simp [assignColors] at hpr
  | cons s rest ih =>
    intro pal hlen pr hpr
    obtain ⟨nm, c⟩ := s
    cases pal with
    | nil => simp at hlen
    | cons c2 cs =>
      simp only [assignColors, List.mem_cons] at hpr
      rcases hpr with h | h
      · rw [h]
        exact List.mem_cons_self _ _
      · have hlen' : cs.length = rest.length := by simpa using hlen
        exact List.mem_cons_of_mem _ (ih cs hlen' pr h)

theorem string_eq_of_data_eq (a b : String) (h : a.data = b.data) : a = b := by
  cases a
  cases b
  exact congrArg String.mk (by simpa using h)

theorem hexData_length (bs : List Nat) : ((bs.map byteToHex).flatten).length = 2 * bs.length := by
  induction bs with
  | nil => rfl
  | cons b rest ih =>
    simp [byteToHex, ih]
    omega

theorem generateMachineID_length (bs : List Nat) :
    (generateMachineID bs).length = 2 * bs.length := by
  have h := hexData_length bs
  simpa [generateMachineID, String.length] using h

theorem pathWith_ne_of_len (dir id1 id2 s1 s2 : String)
    (h : id1.length + s1.length ≠ id2.length + s2.length) :
    xdgRuntimeFilePath dir ("fog/" ++ id1 ++ s1) ≠ xdgRuntimeFilePath dir ("fog/" ++ id2 ++ s2) := by
  intro he
  have hl := congrArg String.length he
  simp only [xdgRuntimeFilePath, String.length_append] at hl
  omega

theorem pathWith_inj_of_len (dir s id1 id2 : String) (hlen : id1.length = id2.length)
    (h : xdgRuntimeFilePath dir ("fog/" ++ id1 ++ s) = xdgRuntimeFilePath dir ("fog/" ++ id2 ++ s)) :
    id1 = id2 := by
  have hd := congrArg String.data h
  simp only [xdgRuntimeFilePath, String.data_append, List.append_assoc] at hd
  have h1 := List.append_cancel_left hd
  have h2 := List.append_cancel_left h1
  have h3 := List.append_cancel_left h2
  have hlen' : id1.data.length = id2.data.length := hlen
  exact string_eq_of_data_eq _ _ (List.append_inj h3 hlen').1

theorem openConnLoop_dials_le (dial : Nat → Except GoError Nat) :
    ∀ (rem i : Nat) (evs : List ConnEvent),
    ((openConnLoop dial i rem evs).events.filter ConnEvent.isDial).length ≤
      (evs.filter ConnEvent.isDial).length + rem := by
  intro rem
  induction rem with
  | zero =>
    intro i evs
    simp [openConnLoop]
  | succ n ih =>
    intro i evs
    simp only [openConnLoop]
    cases h : dial i with
    | ok c =>
      simp [List.filter_append, ConnEvent.isDial]
    | error e =>
      have hrec := ih (i + 1) (evs ++ [.dial i, .sleep 1000])
      simp [List.filter_append, ConnEvent.isDial] at hrec ⊢
      omega

theorem openConn_all_fail (dial : Nat → Except GoError Nat)
    (h : ∀ i, i < 3 → ∃ e, dial i = Except.error e) :
    openConn none dial =
      { conn := none, err := some (.new "failed to open connection"), cache := none,
        events := [.dial 0, .sleep 1000, .dial 1, .sleep 1000, .dial 2, .sleep 1000] } := by
  obtain ⟨e0, h0⟩ := h 0 (by omega)
  obtain ⟨e1, h1⟩ := h 1 (by omega)
  obtain ⟨e2, h2⟩ := h 2 (by omega)
  simp [openConn, openConnLoop, h0, h1, h2]

/-! ## Claims -/

/-- C1: all writes landing within one coalescing window (bufMs from the
first unflushed write) reach the shared sink as exactly one flush holding
their bytes concatenated in write order; the flush clears the buffer and the
pending-timer marker; and a write arriving after the previous flush fired
produces a separate, later flush. -/
theorem logstream_coalescing_c1 :
    (∀ (t0 : Nat) (p : List Nat) (rest : List (Nat × List Nat)),
      (∀ w ∈ rest, w.1 < t0 + bufMs) →
      (run initStream ((t0, p) :: rest)).flushes = [p ++ joinPayloads rest]) ∧
    (∀ (t0 t1 : Nat) (p q : List Nat), t0 + bufMs < t1 →
      (run initStream [(t0, p), (t1, q)]).flushes = [p, q]) ∧
    (∀ st : StreamState, (fireTimer st).buf = [] ∧ (fireTimer st).timer = none ∧
      (fireTimer st).flushes = st.flushes ++ [st.buf]) := by
  refine ⟨?_, ?_, ?_⟩
  · intro t0 p rest hw
    simp only [run, initStream]
    have hfirst : (writeStream ({ buf := [], timer := none, flushes := [] } : StreamState) t0 p).2 =
        { buf := p, timer := some (t0 + bufMs), flushes := [] } := by
      simp [writeStream]
    rw [hfirst, run_pending_window rest _ (t0 + bufMs) rfl hw]
    simp
  · intro t0 t1 p q hlt
    have h1 : t0 + bufMs ≤ t1 := le_of_lt hlt
    simp [run, writeStream, initStream, fireTimer, h1, joinPayloads]
  · intro st
    exact ⟨rfl, rfl, rfl⟩

/-- Witness for C1: writes of byte 97 at t=0 and byte 98 at t=5 coalesce
into one flush, while a second write at t=20 produces its own flush. -/
theorem logstream_coalescing_c1_witness :
    (run initStream [(0, [97]), (5, [98])]).flushes = [[97] ++ joinPayloads [(5, [98])]] ∧
    (run initStream [(0, [97]), (20, [98])]).flushes = [[97], [98]] :=
  ⟨logstream_coalescing_c1.1 0 [97] [(5, [98])] (by decide),
   logstream_coalescing_c1.2.1 0 20 [97] [98] (by decide)⟩

/-- C9: the write closure always returns the pair (len p, nil), for every
payload and every stream state. -/
theorem logstream_write_total_c9 (st : StreamState) (now : Nat) (p : List Nat) :
    (writeStream st now p).1 = (p.length, (none : Option GoError)) := rfl

/-- C3: registering a name already present on the mux panics (returns no
handle), registering a fresh name succeeds and returns the new handle; in
particular a second registration of a name that just succeeded panics. -/
theorem logmux_duplicate_stream_c3 :
    (∀ (m : MuxState) (name : String) (clr : Nat),
      (m.streams.map Prod.fst).contains name = true → streamReg m name clr = none) ∧
    (∀ (m : MuxState) (name : String) (clr : Nat),
      (m.streams.map Prod.fst).contains name = false →
      streamReg m name clr =
        some ({ streams := m.streams ++ [(name, clr)], isDirty := true }, (name, clr))) ∧
    (∀ (m : MuxState) (name : String) (clr clr2 : Nat) (r : MuxState × (String × Nat)),
      streamReg m name clr = some r → streamReg r.1 name clr2 = none) := by
  refine ⟨?_, ?_, ?_⟩
  · intro m name clr h
    simp only [streamReg]
    rw [h]
    simp
  · intro m name clr h
    simp only [streamReg]
    rw [h]
    simp
  · intro m name clr clr2 r h
    simp only [streamReg] at h
    by_cases hc : (m.streams.map Prod.fst).contains name = true
    · rw [hc] at h
      simp at h
    · rw [Bool.not_eq_true] at hc
      rw [hc] at h
      rw [if_neg (by simp)] at h
      have h' := Option.some.inj h
      rw [← h']
      show streamReg ⟨m.streams ++ [(name, clr)], true⟩ name clr2 = none
      simp only [streamReg]
      have hmem : ((m.streams ++ [(name, clr)]).map Prod.fst).contains name = true := by
        simp
      rw [hmem]
      simp

/-- Witness for C3: on a mux already holding stream "a", re-registering "a"
panics while registering "b" succeeds with the new handle. -/
theorem logmux_duplicate_stream_c3_witness :
    streamReg ⟨[("a", 1)], true⟩ "a" 2 = none ∧
    streamReg ⟨[("a", 1)], true⟩ "b" 2 =
      some ({ streams := [("a", 1)] ++ [("b", 2)], isDirty := true }, ("b", 2)) :=
  ⟨logmux_duplicate_stream_c3.1 ⟨[("a", 1)], true⟩ "a" 2 (by decide),
   logmux_duplicate_stream_c3.2.1 ⟨[("a", 1)], true⟩ "b" 2 (by decide)⟩

/-- C5: with the dirty flag set and a palette generator honoring its size
contract, refreshColors recolors every stream from a palette sized to the
current stream count, keeps the names, and clears the dirty flag; with the
flag clear it is a no-op; and registering a new stream preserves every
previously registered stream's (name, color) pair. -/
theorem logmux_refresh_colors_c5 :
    (∀ (m : MuxState) (palGen : Nat → List Nat), m.isDirty = true →
      (palGen m.streams.length).length = m.streams.length →
      (refreshColors palGen m).isDirty = false ∧
      (refreshColors palGen m).streams.map Prod.fst = m.streams.map Prod.fst ∧
      ∀ pr ∈ (refreshColors palGen m).streams, pr.2 ∈ palGen m.streams.length) ∧
    (∀ (m : MuxState) (palGen : Nat → List Nat), m.isDirty = false →
      refreshColors palGen m = m) ∧
    (∀ (m : MuxState) (name : String) (clr : Nat) (r : MuxState × (String × Nat)),
      streamReg m name clr = some r → ∀ pr ∈ m.streams, pr ∈ r.1.streams) := by
  refine ⟨?_, ?_, ?_⟩
  · intro m palGen hdirty hlen
    have hre : refreshColors palGen m =
        { streams := assignColors m.streams (palGen m.streams.length), isDirty := false } := by
      simp only [refreshColors]
      rw [hdirty]
      simp
    refine ⟨by rw [hre], ?_, ?_⟩
    · rw [hre]
      exact assignColors_names m.streams _
    · rw [hre]
      intro pr hpr
      exact assignColors_mem_pal m.streams _ hlen pr hpr
  · intro m palGen hclean
    simp only [refreshColors]
    rw [hclean]
    simp
  · intro m name clr r h
    simp only [streamReg] at h
    by_cases hc : (m.streams.map Prod.fst).contains name = true
    · rw [hc] at h
      simp at h
    · rw [Bool.not_eq_true] at hc
      rw [hc] at h
      rw [if_neg (by simp)] at h
      have h' := Option.some.inj h
      rw [← h']
      intro pr hpr
      exact List.mem_append_left _ hpr

/-- Witness for C5: refreshing a dirty two-stream mux with the palette
generator n ↦ range n clears the flag and keeps the names. -/
theorem logmux_refresh_colors_c5_witness :
    (refreshColors (fun n => List.range n) ⟨[("a", 5), ("b", 7)], true⟩).isDirty = false ∧
    (refreshColors (fun n => List.range n) ⟨[("a", 5), ("b", 7)], true⟩).streams.map Prod.fst =
      ["a", "b"] :=
  ⟨(logmux_refresh_colors_c5.1 ⟨[("a", 5), ("b", 7)], true⟩ (fun n => List.range n) rfl
      (by decide)).1,
   (logmux_refresh_colors_c5.1 ⟨[("a", 5), ("b", 7)], true⟩ (fun n => List.range n) rfl
      (by decide)).2.1⟩

/-- C2: with no cached connection, openConn dials at most three times; when
every dial fails it performs exactly three dials separated by one-second
sleeps, returns the nil connection together with the connection-establishment
error, and leaves the cached-connection state unset. -/
theorem machine_conn_bounded_retry_c2 :
    (∀ (cached : Option Nat) (dial : Nat → Except GoError Nat),
      ((openConn cached dial).events.filter ConnEvent.isDial).length ≤ 3) ∧
    (∀ dial : Nat → Except GoError Nat, (∀ i, i < 3 → ∃ e, dial i = Except.error e) →
      openConn none dial =
        { conn := none, err := some (.new "failed to open connection"), cache := none,
          events := [.dial 0, .sleep 1000, .dial 1, .sleep 1000, .dial 2, .sleep 1000] }) := by
  constructor
  · intro cached dial
    cases cached with
    | some c => simp [openConn]
    | none =>
      have h := openConnLoop_dials_le dial 3 0 []
      simpa [openConn] using h
  · intro dial h
    exact openConn_all_fail dial h

/-- Witness for C2: a dialer that always fails yields the three-dial trace,
the terminal error, a nil connection and an unset cache. -/
theorem machine_conn_bounded_retry_c2_witness :
    openConn none (fun _ => Except.error (GoError.new "dial unix: no such file")) =
      { conn := none, err := some (.new "failed to open connection"), cache := none,
        events := [.dial 0, .sleep 1000, .dial 1, .sleep 1000, .dial 2, .sleep 1000] } :=
  machine_conn_bounded_retry_c2.2 (fun _ => Except.error (GoError.new "dial unix: no such file"))
    (fun _ _ => ⟨GoError.new "dial unix: no such file", rfl⟩)

/-- C4: with port rules ["tcp::2222-:22"] the networking argument (element
15 of the launch argument list, right after the second -net) contains the
substring hostfwd=tcp::2222-:22; with no rules it is exactly "user" and
contains no hostfwd clause. -/
theorem machine_start_hostfwd_c4 :
    (∀ (mem img addr tty mon ds : String),
      (startArgs ⟨mem, ["tcp::2222-:22"]⟩ img addr tty mon ds).get? 15 =
        some "user,hostfwd=tcp::2222-:22") ∧
    strContains "user,hostfwd=tcp::2222-:22" "hostfwd=tcp::2222-:22" = true ∧
    (∀ (mem img addr tty mon ds : String),
      (startArgs ⟨mem, []⟩ img addr tty mon ds).get? 15 = some "user") ∧
    strContains "user" "hostfwd" = false := by
  refine ⟨?_, by decide, ?_, by decide⟩
  · intro mem img addr tty mon ds
    rfl
  · intro mem img addr tty mon ds
    rfl

/-- C10: for two or more port-forward rules the networking argument is
exactly "user,hostfwd=" followed by the rules joined with commas, so the
hostfwd= key appears once, prefixing only the first rule. -/
theorem machine_start_hostfwd_once_c10 :
    (∀ (conf : MachineConfig) (img addr tty mon ds : String),
      (startArgs conf img addr tty mon ds).get? 15 = some ("user" ++ fwds conf.Ports)) ∧
    (∀ (r1 r2 : String) (rs : List String),
      "user" ++ fwds (r1 :: r2 :: rs) =
        "user,hostfwd=" ++ String.intercalate "," (r1 :: r2 :: rs)) ∧
    countSub "hostfwd=".data ("user" ++ fwds ["tcp::2222-:22", "tcp::8080-:80"]).data = 1 := by
  refine ⟨?_, ?_, by decide⟩
  · intro conf img addr tty mon ds
    rfl
  · intro r1 r2 rs
    simp only [fwds]
    rw [if_pos (by simp)]
    rw [← String.append_assoc]
    rfl

/-- C6 counterexample: after three failed dials (here all failing with a
concrete dial error) Conn returns the bare errors.New connection error, which
names the operation but wraps no underlying cause, contrary to the claim that
it wraps the underlying error. -/
theorem conn_error_lacks_cause_c6_counterexample :
    (connCall none (fun _ => Except.error (GoError.new "dial unix: connection refused"))).2 =
      some (GoError.new "failed to open connection") ∧
    (GoError.new "failed to open connection").hasCause = false := by
  constructor
  · rfl
  · rfl

/-- C6 amended: every error Machine.Start returns wraps the underlying cause
and names the failing step, but the terminal connection error of Conn only
names the operation (errors.New "failed to open connection") and carries no
underlying cause. -/
theorem error_context_c6_amended :
    (∀ (conf : MachineConfig) (img id : String) (port : Nat)
      (lp : Except GoError String) (xdgRF : String → Except GoError String)
      (cmd : Option GoError) (e : GoError),
      startRun conf img id port lp xdgRF cmd = .error e → e.hasCause = true) ∧
    (∀ dial : Nat → Except GoError Nat, (∀ i, i < 3 → ∃ er, dial i = Except.error er) →
      (openConn none dial).err = some (.new "failed to open connection") ∧
      (GoError.new "failed to open connection").hasCause = false) := by
  constructor
  · intro conf img id port lp xdgRF cmd e h
    unfold startRun at h
    cases lp with
    | error e1 =>
      simp only [Except.error.injEq] at h
      rw [← h]
      rfl
    | ok bin =>
      cases hx1 : xdgRF ("fog/" ++ id ++ ".sock") with
      | error e1 =>
        rw [hx1] at h
        simp only [Except.error.injEq] at h
        rw [← h]
        rfl
      | ok addr =>
        rw [hx1] at h
        cases hx2 : xdgRF ("fog/" ++ id ++ "_tty.sock") with
        | error e1 =>
          rw [hx2] at h
          simp only [Except.error.injEq] at h
          rw [← h]
          rfl
        | ok ttyAddr =>
          rw [hx2] at h
          cases hx3 : xdgRF ("fog/" ++ id ++ "_monitor.sock") with
          | error e1 =>
            rw [hx3] at h
            simp only [Except.error.injEq] at h
            rw [← h]
            rfl
          | ok monAddr =>
            rw [hx3] at h
            cases cmd with
            | some e1 =>
              simp only [Except.error.injEq] at h
              rw [← h]
              rfl
            | none => simp at h
  · intro dial h
    refine ⟨?_, rfl⟩
    rw [openConn_all_fail dial h]

/-- Witness for the amended C6: a missing qemu binary yields a wrapped
"finding qemu binary" error from Start, and an always-failing dialer yields
the bare terminal connection error from Conn. -/
theorem error_context_c6_amended_witness :
    (GoError.wrap "finding qemu binary" (GoError.new "executable not found")).hasCause = true ∧
    (openConn none (fun _ => Except.error (GoError.new "dial unix: connection refused"))).err =
      some (.new "failed to open connection") :=
  ⟨error_context_c6_amended.1 ⟨"2048", []⟩ "img" "mid" 80
      (Except.error (GoError.new "executable not found")) (fun _ => Except.ok "p") none
      (GoError.wrap "finding qemu binary" (GoError.new "executable not found")) rfl,
   (error_context_c6_amended.2 (fun _ => Except.error (GoError.new "dial unix: connection refused"))
      (fun _ _ => ⟨GoError.new "dial unix: connection refused", rfl⟩)).1⟩

/-- C7 evidence: in the shipped code neither the write closure nor the
timer-fired flush callback acquires any mutex, so their touches of the
shared buffer b and timer handle t are not mutually excluded on either
variable. -/
theorem write_flush_unsynchronized_c7 :
    mutuallyExcludedOn writeClosureActions flushCallbackActions SharedVar.buf = false ∧
    mutuallyExcludedOn writeClosureActions flushCallbackActions SharedVar.timer = false := by
  exact ⟨by decide, by decide⟩

/-- C8: the three socket paths of one machine are pairwise distinct for any
identity token, and two machines whose 32-byte-seeded identity tokens differ
share none of their six derived paths. -/
theorem machine_socket_paths_distinct_c8 :
    (∀ dir id : String,
      primaryPath dir id ≠ ttyPath dir id ∧
      primaryPath dir id ≠ monitorPath dir id ∧
      ttyPath dir id ≠ monitorPath dir id) ∧
    (∀ (dir : String) (b1 b2 : List Nat), b1.length = 32 → b2.length = 32 →
      generateMachineID b1 ≠ generateMachineID b2 →
      primaryPath dir (generateMachineID b1) ≠ primaryPath dir (generateMachineID b2) ∧
      primaryPath dir (generateMachineID b1) ≠ ttyPath dir (generateMachineID b2) ∧
      primaryPath dir (generateMachineID b1) ≠ monitorPath dir (generateMachineID b2) ∧
      ttyPath dir (generateMachineID b1) ≠ primaryPath dir (generateMachineID b2) ∧
      ttyPath dir (generateMachineID b1) ≠ ttyPath dir (generateMachineID b2) ∧
      ttyPath dir (generateMachineID b1) ≠ monitorPath dir (generateMachineID b2) ∧
      monitorPath dir (generateMachineID b1) ≠ primaryPath dir (generateMachineID b2) ∧
      monitorPath dir (generateMachineID b1) ≠ ttyPath dir (generateMachineID b2) ∧
      monitorPath dir (generateMachineID b1) ≠ monitorPath dir (generateMachineID b2)) := by
  constructor
  · intro dir id
    simp only [primaryPath, ttyPath, monitorPath]
    refine ⟨?_, ?_, ?_⟩
    · exact pathWith_ne_of_len dir id id ".sock" "_tty.sock"
        (by show id.length + 5 ≠ id.length + 9; omega)
    · exact pathWith_ne_of_len dir id id ".sock" "_monitor.sock"
        (by show id.length + 5 ≠ id.length + 13; omega)
    · exact pathWith_ne_of_len dir id id "_tty.sock" "_monitor.sock"
        (by show id.length + 9 ≠ id.length + 13; omega)
  · intro dir b1 b2 hb1 hb2 hne
    have ha : (generateMachineID b1).length = 64 := by rw [generateMachineID_length, hb1]
    have hb : (generateMachineID b2).length = 64 := by rw [generateMachineID_length, hb2]
    have hlen : (generateMachineID b1).length = (generateMachineID b2).length := by
      rw [ha, hb]
    simp only [primaryPath, ttyPath, monitorPath]
    refine ⟨?_, ?_, ?_, ?_, ?_, ?_, ?_, ?_, ?_⟩
    · exact fun he => hne (pathWith_inj_of_len dir ".sock" _ _ hlen he)
    · exact pathWith_ne_of_len dir _ _ ".sock" "_tty.sock"
        (by rw [ha, hb]; show (64 : Nat) + 5 ≠ 64 + 9; omega)
    · exact pathWith_ne_of_len dir _ _ ".sock" "_monitor.sock"
        (by rw [ha, hb]; show (64 : Nat) + 5 ≠ 64 + 13; omega)
    · exact pathWith_ne_of_len dir _ _ "_tty.sock" ".sock"
        (by rw [ha, hb]; show (64 : Nat) + 9 ≠ 64 + 5; omega)
    · exact fun he => hne (pathWith_inj_of_len dir "_tty.sock" _ _ hlen he)
    · exact pathWith_ne_of_len dir _ _ "_tty.sock" "_monitor.sock"
        (by rw [ha, hb]; show (64 : Nat) + 9 ≠ 64 + 13; omega)
    · exact pathWith_ne_of_len dir _ _ "_monitor.sock" ".sock"
        (by rw [ha, hb]; show (64 : Nat) + 13 ≠ 64 + 5; omega)
    · exact pathWith_ne_of_len dir _ _ "_monitor.sock" "_tty.sock"
        (by rw [ha, hb]; show (64 : Nat) + 13 ≠ 64 + 9; omega)
    · exact fun he => hne (pathWith_inj_of_len dir "_monitor.sock" _ _ hlen he)

/-- Witness for C8: two concrete 32-byte seeds give machines sharing no
socket paths, and one machine's primary and tty paths differ. -/
theorem machine_socket_paths_distinct_c8_witness :
    primaryPath "run" (generateMachineID (List.replicate 32 0)) ≠
      ttyPath "run" (generateMachineID (List.replicate 32 0)) ∧
    primaryPath "run" (generateMachineID (List.replicate 32 0)) ≠
      primaryPath "run" (generateMachineID (List.replicate 32 1)) :=
  ⟨(machine_socket_paths_distinct_c8.1 "run" (generateMachineID (List.replicate 32 0))).1,
   (machine_socket_paths_distinct_c8.2 "run" (List.replicate 32 0) (List.replicate 32 1)
      (by decide) (by decide) (by decide)).1⟩
